import Mathlib

/-!
# Verification of `libvirt_exporter.go`

A shallow embedding of the collection pipeline of the libvirt Prometheus
exporter (`src/libvirt_exporter.go`).  The libvirt client library and the
Prometheus client library are external collaborators; they are modelled as
explicit behaviour records (`DomainBehavior`, `ConnBehavior`, `LibvirtEnv`)
whose fields give the outcome of each call the Go code can make, and the
side effects of the Go code (samples sent on the channel `ch`, calls to
`Free`/`Close`, block-stats queries) are made explicit as returned lists.

Numeric values: the Go code converts `int64` counters with `float64(...)`
and divides time counters by `1e9`.  Values are modelled in `ℚ`, where the
conversion is exact and the division is the exact mapping the spec
describes.

Go semantics note for `CollectFromLibvirt` (lines 196–198 of the source):
the repository uses a pre-modules relative import (`"./libvirt_schema"`),
so it is built with a Go toolchain older than 1.22, where the variable of a
`range` loop is a single variable reused by every iteration.  The statement
`defer domain.Free()` defers a method value whose receiver is the pointer
`&domain` (because `Free` has a pointer receiver), evaluated when the
`defer` statement runs; every deferred call therefore shares the address of
the one loop variable, which at function exit holds the last element of
`domains`.  The embedding reproduces this: all deferred frees of the bulk
path release the last listed handle.
-/

/-- Errors returned by the modelled libvirt client.  The Go code never
inspects an error value (it only compares `err` with `nil`), so the model
carries errors through unchanged.  `enumerationUnsupported` is the signal
the spec associates with an older server lacking `ListAllDomains`. -/
inductive Err where
  | enumerationUnsupported : Err
  | parseError : Err
  | generic : Nat → Err
deriving DecidableEq, Repr

/-- `<source file='...'/>` of a `<disk>` element (package `libvirt_schema`). -/
structure DiskSource where
  file : String
deriving DecidableEq, Repr

/-- `<target dev='...'/>` of a `<disk>` element (package `libvirt_schema`). -/
structure DiskTarget where
  device : String
deriving DecidableEq, Repr

/-- One `<disk>` element of a domain descriptor (package `libvirt_schema`). -/
structure Disk where
  source : DiskSource
  target : DiskTarget
deriving DecidableEq, Repr

/-- The `<devices>` subtree of a domain descriptor (package `libvirt_schema`). -/
structure Devices where
  disks : List Disk
deriving DecidableEq, Repr

/-- The parsed domain descriptor (struct `Domain` of package `libvirt_schema`). -/
structure SchemaDomain where
  devices : Devices
deriving DecidableEq, Repr

/-- Modelled from the spec: the raw structured document returned by
`GetXMLDesc`.  The Domain Descriptor Parser (package `libvirt_schema`
together with `encoding/xml`, absent from `src/`) either succeeds on a
well-formed document, yielding the typed descriptor, or fails on a
malformed one. -/
inductive RawDoc where
  | wellFormed : SchemaDomain → RawDoc
  | malformed : RawDoc
deriving DecidableEq, Repr

/-- Modelled from the spec: `xml.Unmarshal` into `libvirt_schema.Domain`
("Fails with ParseError if the document is malformed or does not match the
expected schema", spec §4.1). -/
def xmlUnmarshal : RawDoc → Except Err SchemaDomain
  | RawDoc.wellFormed d => Except.ok d
  | RawDoc.malformed => Except.error Err.parseError

/-- The `libvirt.DomainBlockStats` record: eight `int64` counters, each with
its own presence flag (`...Set`). -/
structure BlockStats where
  rdBytes : Int
  rdBytesSet : Bool
  rdReq : Int
  rdReqSet : Bool
  rdTotalTimes : Int
  rdTotalTimesSet : Bool
  wrBytes : Int
  wrBytesSet : Bool
  wrReq : Int
  wrReqSet : Bool
  wrTotalTimes : Int
  wrTotalTimesSet : Bool
  flushReq : Int
  flushReqSet : Bool
  flushTotalTimes : Int
  flushTotalTimesSet : Bool
deriving DecidableEq, Repr

/-- Behaviour of one `*libvirt.Domain` handle: the outcome of each query the
Go code can issue on it.  `handleId` identifies the handle in the release
trace. -/
structure DomainBehavior where
  handleId : Nat
  getName : Except Err String
  getXMLDesc : Except Err RawDoc
  blockStats : String → Except Err BlockStats

/-- Behaviour of one `*libvirt.Connect`: outcomes of the three enumeration
calls the Go code can issue. -/
structure ConnBehavior where
  listAllDomains : Except Err (List DomainBehavior)
  listDomains : Except Err (List Nat)
  lookupDomainById : Nat → Except Err DomainBehavior

/-- The environment: `libvirt.NewConnect` for a given URI. -/
structure LibvirtEnv where
  newConnect : String → Except Err ConnBehavior

/-- `prometheus.ValueType` (only the two constructors the code uses). -/
inductive ValueType where
  | counterValue : ValueType
  | gaugeValue : ValueType
deriving DecidableEq, Repr

/-- A `*prometheus.Desc`: fully qualified name, help string, variable label
names (`NewDesc`'s first three arguments; the code always passes `nil`
constant labels). -/
structure Desc where
  fqName : String
  help : String
  variableLabels : List String
deriving DecidableEq, Repr

/-- `prometheus.BuildFQName`: joins the non-empty parts with `_`; returns
`""` when `name` is empty. -/
def BuildFQName (namespc subsystem name : String) : String :=
  if name = "" then ""
  else if namespc ≠ "" ∧ subsystem ≠ "" then namespc ++ "_" ++ subsystem ++ "_" ++ name
  else if namespc ≠ "" then namespc ++ "_" ++ name
  else if subsystem ≠ "" then subsystem ++ "_" ++ name
  else name

/-- `prometheus.NewDesc` (with `nil` constant labels). -/
def NewDesc (fqName help : String) (variableLabels : List String) : Desc :=
  ⟨fqName, help, variableLabels⟩

/-- A sample sent on the channel: result of `prometheus.MustNewConstMetric`. -/
structure Metric where
  desc : Desc
  valueType : ValueType
  value : ℚ
  labelValues : List String
deriving DecidableEq, Repr

/-- `prometheus.MustNewConstMetric` (the value and label values as passed). -/
def MustNewConstMetric (d : Desc) (t : ValueType) (v : ℚ) (labelValues : List String) : Metric :=
  ⟨d, t, v, labelValues⟩

def libvirtUpDesc : Desc :=
  NewDesc (BuildFQName "libvirt" "" "up")
    "Whether scraping libvirt\x27s metrics was successful." []

def libvirtBlockRdBytesDesc : Desc :=
  NewDesc (BuildFQName "libvirt" "block_stats" "read_bytes_total")
    "Number of bytes read from a block device, in bytes."
    ["domain", "source_file", "target_device"]

def libvirtBlockRdReqDesc : Desc :=
  NewDesc (BuildFQName "libvirt" "block_stats" "read_requests_total")
    "Number of read requests from a block device."
    ["domain", "source_file", "target_device"]

def libvirtBlockRdTotalTimesDesc : Desc :=
  NewDesc (BuildFQName "libvirt" "block_stats" "read_seconds_total")
    "Amount of time spent reading from a block device, in seconds."
    ["domain", "source_file", "target_device"]

def libvirtBlockWrBytesDesc : Desc :=
  NewDesc (BuildFQName "libvirt" "block_stats" "write_bytes_total")
    "Number of bytes written from a block device, in bytes."
    ["domain", "source_file", "target_device"]

def libvirtBlockWrReqDesc : Desc :=
  NewDesc (BuildFQName "libvirt" "block_stats" "write_requests_total")
    "Number of write requests from a block device."
    ["domain", "source_file", "target_device"]

def libvirtBlockWrTotalTimesDesc : Desc :=
  NewDesc (BuildFQName "libvirt" "block_stats" "write_seconds_total")
    "Amount of time spent writing from a block device, in seconds."
    ["domain", "source_file", "target_device"]

def libvirtBlockFlushReqDesc : Desc :=
  NewDesc (BuildFQName "libvirt" "block_stats" "flush_requests_total")
    "Number of flush requests from a block device."
    ["domain", "source_file", "target_device"]

def libvirtBlockFlushTotalTimesDesc : Desc :=
  NewDesc (BuildFQName "libvirt" "block_stats" "flush_seconds_total")
    "Amount of time spent flushing of a block device, in seconds."
    ["domain", "source_file", "target_device"]

/-- The eight block-stats descriptors, in source declaration order. -/
def blockStatsDescs : List Desc :=
  [libvirtBlockRdBytesDesc, libvirtBlockRdReqDesc, libvirtBlockRdTotalTimesDesc,
   libvirtBlockWrBytesDesc, libvirtBlockWrReqDesc, libvirtBlockWrTotalTimesDesc,
   libvirtBlockFlushReqDesc, libvirtBlockFlushTotalTimesDesc]

/-- Observable side effects other than channel sends: block-stats queries,
`Free` calls and `Close` calls, in program order. -/
inductive Event where
  | queryBlockStats : Nat → String → Event
  | freeDomain : Nat → Event
  | closeConn : Event
  | callListAllDomains : Event
  | callListDomains : Event
  | callLookupById : Nat → Event
deriving DecidableEq, Repr

/-- Result of running a piece of the pipeline: samples sent on `ch`,
side-effect trace, and the returned `error` (`none` = `nil`). -/
structure CollectResult where
  metrics : List Metric
  events : List Event
  err : Option Err
deriving DecidableEq, Repr

/-- One `if ...Set { ch <- ... }` block of `CollectDomain`. -/
def emitIf (b : Bool) (m : Metric) : List Metric :=
  if b then [m] else []

/-- The body of the disk loop of `CollectDomain` for one disk, given the
stats it obtained: the eight conditional channel sends, in source order
(lines 102–173).  Time counters are divided by `1e9`; the `Errs` counter is
deliberately not emitted (lines 174–175). -/
def diskMetrics (domainName : String) (disk : Disk) (bs : BlockStats) : List Metric :=
  emitIf bs.rdBytesSet
    (MustNewConstMetric libvirtBlockRdBytesDesc ValueType.counterValue
      (bs.rdBytes : ℚ) [domainName, disk.source.file, disk.target.device]) ++
  emitIf bs.rdReqSet
    (MustNewConstMetric libvirtBlockRdReqDesc ValueType.counterValue
      (bs.rdReq : ℚ) [domainName, disk.source.file, disk.target.device]) ++
  emitIf bs.rdTotalTimesSet
    (MustNewConstMetric libvirtBlockRdTotalTimesDesc ValueType.counterValue
      ((bs.rdTotalTimes : ℚ) / 1000000000) [domainName, disk.source.file, disk.target.device]) ++
  emitIf bs.wrBytesSet
    (MustNewConstMetric libvirtBlockWrBytesDesc ValueType.counterValue
      (bs.wrBytes : ℚ) [domainName, disk.source.file, disk.target.device]) ++
  emitIf bs.wrReqSet
    (MustNewConstMetric libvirtBlockWrReqDesc ValueType.counterValue
      (bs.wrReq : ℚ) [domainName, disk.source.file, disk.target.device]) ++
  emitIf bs.wrTotalTimesSet
    (MustNewConstMetric libvirtBlockWrTotalTimesDesc ValueType.counterValue
      ((bs.wrTotalTimes : ℚ) / 1000000000) [domainName, disk.source.file, disk.target.device]) ++
  emitIf bs.flushReqSet
    (MustNewConstMetric libvirtBlockFlushReqDesc ValueType.counterValue
      (bs.flushReq : ℚ) [domainName, disk.source.file, disk.target.device]) ++
  emitIf bs.flushTotalTimesSet
    (MustNewConstMetric libvirtBlockFlushTotalTimesDesc ValueType.counterValue
      ((bs.flushTotalTimes : ℚ) / 1000000000) [domainName, disk.source.file, disk.target.device])

/-- The disk loop of `CollectDomain` (lines 97–176): query the stats of each
disk in descriptor order, return the error of the first failing query. -/
def collectDisks (dom : DomainBehavior) (domainName : String) : List Disk → CollectResult
  | [] => ⟨[], [], none⟩
  | disk :: rest =>
    match dom.blockStats disk.target.device with
    | Except.error e =>
      ⟨[], [Event.queryBlockStats dom.handleId disk.target.device], some e⟩
    | Except.ok bs =>
      let r := collectDisks dom domainName rest
      ⟨diskMetrics domainName disk bs ++ r.metrics,
       Event.queryBlockStats dom.handleId disk.target.device :: r.events,
       r.err⟩

/-- `CollectDomain` (lines 79–179): resolve the name, fetch and parse the
descriptor, then run the disk loop; each step returns its error on
failure. -/
def CollectDomain (dom : DomainBehavior) : CollectResult :=
  match dom.getName with
  | Except.error e => ⟨[], [], some e⟩
  | Except.ok domainName =>
    match dom.getXMLDesc with
    | Except.error e => ⟨[], [], some e⟩
    | Except.ok raw =>
      match xmlUnmarshal raw with
      | Except.error e => ⟨[], [], some e⟩
      | Except.ok desc => collectDisks dom domainName desc.devices.disks

/-- The bulk-path loop of `CollectFromLibvirt` (lines 199–204): collect each
listed domain, stopping at the first error.  The deferred `Free` calls are
not part of this loop; they run at function exit (see `CollectFromLibvirt`). -/
def bulkCollect : List DomainBehavior → CollectResult
  | [] => ⟨[], [], none⟩
  | d :: rest =>
    let r := CollectDomain d
    match r.err with
    | some e => ⟨r.metrics, r.events, some e⟩
    | none =>
      let r2 := bulkCollect rest
      ⟨r.metrics ++ r2.metrics, r.events ++ r2.events, r2.err⟩

/-- The deferred `Free` calls registered by the first bulk-path loop (lines
196–198).  `defer domain.Free()` saves the receiver pointer `&domain`; with
the pre-Go-1.22 semantics this repository is built with, that is the address
of the single loop variable, which at function exit holds the last element
of `domains`: every deferred call frees the last listed handle. -/
def bulkDeferredFrees (domains : List DomainBehavior) : List Event :=
  match domains.getLast? with
  | none => []
  | some last => List.replicate domains.length (Event.freeDomain last.handleId)

/-- The fallback loop of `CollectFromLibvirt` (lines 210–219): look up each
numeric id; a failed lookup is skipped silently; a successful lookup is
collected and freed immediately, and a collection error aborts the loop. -/
def fallbackCollect (conn : ConnBehavior) : List Nat → CollectResult
  | [] => ⟨[], [], none⟩
  | id :: rest =>
    match conn.lookupDomainById id with
    | Except.error _ =>
      let r := fallbackCollect conn rest
      ⟨r.metrics, Event.callLookupById id :: r.events, r.err⟩
    | Except.ok d =>
      let r := CollectDomain d
      match r.err with
      | some e =>
        ⟨r.metrics,
         Event.callLookupById id :: (r.events ++ [Event.freeDomain d.handleId]),
         some e⟩
      | none =>
        let r2 := fallbackCollect conn rest
        ⟨r.metrics ++ r2.metrics,
         Event.callLookupById id :: (r.events ++ [Event.freeDomain d.handleId] ++ r2.events),
         r2.err⟩

/-- The fallback tier of `CollectFromLibvirt` (lines 206–220): list numeric
ids (propagating a listing error), then run the fallback loop. -/
def fallbackPath (conn : ConnBehavior) : CollectResult :=
  match conn.listDomains with
  | Except.error e => ⟨[], [Event.callListDomains], some e⟩
  | Except.ok ids =>
    let r := fallbackCollect conn ids
    ⟨r.metrics, Event.callListDomains :: r.events, r.err⟩

/-- `CollectFromLibvirt` (lines 183–223): open the connection (`defer
conn.Close()`), try the bulk listing; on `err == nil` run the bulk loop with
per-handle deferred frees, otherwise run the fallback tier.  `closeConn` is
appended on every exit path after a successful open. -/
def CollectFromLibvirt (env : LibvirtEnv) (uri : String) : CollectResult :=
  match env.newConnect uri with
  | Except.error e => ⟨[], [], some e⟩
  | Except.ok conn =>
    match conn.listAllDomains with
    | Except.ok domains =>
      let r := bulkCollect domains
      ⟨r.metrics,
       Event.callListAllDomains :: (r.events ++ bulkDeferredFrees domains ++ [Event.closeConn]),
       r.err⟩
    | Except.error _ =>
      let r := fallbackPath conn
      ⟨r.metrics,
       Event.callListAllDomains :: (r.events ++ [Event.closeConn]),
       r.err⟩

/-- `LibvirtExporter` (lines 226–228). -/
structure LibvirtExporter where
  uri : String
deriving DecidableEq, Repr

/-- `NewLibvirtExporter` (lines 231–235): always succeeds. -/
def NewLibvirtExporter (uri : String) : Except Err LibvirtExporter :=
  Except.ok ⟨uri⟩

/-- `Describe` (lines 238–249): all descriptors, in source order. -/
def LibvirtExporter.Describe (_e : LibvirtExporter) : List Desc :=
  [libvirtUpDesc,
   libvirtBlockRdBytesDesc, libvirtBlockRdReqDesc, libvirtBlockRdTotalTimesDesc,
   libvirtBlockWrBytesDesc, libvirtBlockWrReqDesc, libvirtBlockWrTotalTimesDesc,
   libvirtBlockFlushReqDesc, libvirtBlockFlushTotalTimesDesc]

/-- The `libvirt_up` gauge sample. -/
def upMetric (v : ℚ) : Metric :=
  MustNewConstMetric libvirtUpDesc ValueType.gaugeValue v []

/-- `Collect` (lines 252–266): run the pipeline; append `libvirt_up = 1` on
success and `libvirt_up = 0` on any error (which is logged, not raised). -/
def LibvirtExporter.Collect (ex : LibvirtExporter) (env : LibvirtEnv) : List Metric :=
  let r := CollectFromLibvirt env ex.uri
  match r.err with
  | none => r.metrics ++ [upMetric 1]
  | some _ => r.metrics ++ [upMetric 0]

/-- Count of samples carrying a given descriptor. -/
def countDesc (d : Desc) (ms : List Metric) : Nat :=
  List.countP (fun m => decide (m.desc = d)) ms

/-- Samples carrying a given descriptor, in emission order. -/
def samplesFor (d : Desc) (ms : List Metric) : List Metric :=
  List.filter (fun m => decide (m.desc = d)) ms

/-- A metric of the block-stats family: one of the eight declared
descriptors, counter kind, three label values. -/
def isBlockSample (m : Metric) : Prop :=
  m.desc ∈ blockStatsDescs ∧ m.valueType = ValueType.counterValue ∧
  m.labelValues.length = 3

/-- A stats snapshot with only read-bytes (1024) and read-time
(2 500 000 000 ns) reported as meaningful. -/
def bsEx : BlockStats :=
  ⟨1024, true, 0, false, 2500000000, true, 0, false, 0, false, 0, false, 0, false, 0, false⟩

def diskA : Disk := ⟨⟨"/a.img"⟩, ⟨"vda"⟩⟩

def diskB : Disk := ⟨⟨"/b.img"⟩, ⟨"vdb"⟩⟩

def diskC : Disk := ⟨⟨"/c.img"⟩, ⟨"vdc"⟩⟩

/-- An active domain with id 3, one disk, all queries succeeding. -/
def dom3 : DomainBehavior :=
  ⟨3, Except.ok "vm3", Except.ok (RawDoc.wellFormed ⟨⟨[diskA]⟩⟩), fun _ => Except.ok bsEx⟩

/-- An active domain with id 9, one disk, all queries succeeding. -/
def dom9 : DomainBehavior :=
  ⟨9, Except.ok "vm9", Except.ok (RawDoc.wellFormed ⟨⟨[diskA]⟩⟩), fun _ => Except.ok bsEx⟩

/-- A domain whose block-stats query always fails. -/
def domBad : DomainBehavior :=
  ⟨4, Except.ok "vmbad", Except.ok (RawDoc.wellFormed ⟨⟨[diskA]⟩⟩),
   fun _ => Except.error (Err.generic 9)⟩

/-- Old server: bulk listing unsupported; ids [3, 7, 9]; the lookup of id 7
fails, ids 3 and 9 resolve. -/
def connC5 : ConnBehavior :=
  ⟨Except.error Err.enumerationUnsupported, Except.ok [3, 7, 9],
   fun id => if id = 3 then Except.ok dom3
     else if id = 9 then Except.ok dom9
     else Except.error (Err.generic 1)⟩

def envC5 : LibvirtEnv := ⟨fun _ => Except.ok connC5⟩

/-- Old server whose single looked-up domain fails during collection. -/
def connC5b : ConnBehavior :=
  ⟨Except.error Err.enumerationUnsupported, Except.ok [4], fun _ => Except.ok domBad⟩

/-- A connection whose bulk listing fails with a generic error that is not
the enumeration-unsupported signal; the id listing succeeds (empty). -/
def connC1 : ConnBehavior :=
  ⟨Except.error (Err.generic 5), Except.ok [], fun _ => Except.error (Err.generic 1)⟩

def envC1 : LibvirtEnv := ⟨fun _ => Except.ok connC1⟩

/-- Handle 1: a domain with no disks (collection trivially succeeds). -/
def domH1 : DomainBehavior :=
  ⟨1, Except.ok "vm1", Except.ok (RawDoc.wellFormed ⟨⟨[]⟩⟩),
   fun _ => Except.error (Err.generic 0)⟩

/-- Handle 2: a domain with no disks (collection trivially succeeds). -/
def domH2 : DomainBehavior :=
  ⟨2, Except.ok "vm2", Except.ok (RawDoc.wellFormed ⟨⟨[]⟩⟩),
   fun _ => Except.error (Err.generic 0)⟩

/-- A connection whose bulk listing returns two handles. -/
def connC6 : ConnBehavior :=
  ⟨Except.ok [domH1, domH2], Except.error (Err.generic 2),
   fun _ => Except.error (Err.generic 1)⟩

def envC6 : LibvirtEnv := ⟨fun _ => Except.ok connC6⟩

/-- A domain with three disks whose stats query fails exactly on the second
disk (`vdb`). -/
def domC4 : DomainBehavior :=
  ⟨5, Except.ok "vm4", Except.ok (RawDoc.wellFormed ⟨⟨[diskA, diskB, diskC]⟩⟩),
   fun dev => if dev = "vdb" then Except.error (Err.generic 7) else Except.ok bsEx⟩

def connC4 : ConnBehavior :=
  ⟨Except.ok [domC4], Except.error (Err.generic 2), fun _ => Except.error (Err.generic 1)⟩

def envC4 : LibvirtEnv := ⟨fun _ => Except.ok connC4⟩

/-- An environment whose connection open always fails. -/
def envFail : LibvirtEnv := ⟨fun _ => Except.error (Err.generic 3)⟩

/-- A domain whose parsed descriptor lists zero disks. -/
def domEmpty : DomainBehavior :=
  ⟨6, Except.ok "vm6", Except.ok (RawDoc.wellFormed ⟨⟨[]⟩⟩),
   fun _ => Except.error (Err.generic 2)⟩

/-- The read-bytes sample of `diskMetrics "vm3" diskA bsEx`. -/
def mEx : Metric :=
  MustNewConstMetric libvirtBlockRdBytesDesc ValueType.counterValue 1024
    ["vm3", "/a.img", "vda"]

lemma countP_emitIf (p : Metric → Bool) (b : Bool) (m : Metric) :
    List.countP p (emitIf b m) = if b then (if p m then 1 else 0) else 0 := by
  cases b <;> simp [emitIf, List.countP_cons]

lemma filter_emitIf (p : Metric → Bool) (b : Bool) (m : Metric) :
    List.filter p (emitIf b m) = if b then (if p m then [m] else []) else [] := by
  cases b <;> simp [emitIf, List.filter_cons]

lemma mem_emitIf {x m : Metric} {b : Bool} : x ∈ emitIf b m ↔ b = true ∧ x = m := by
  cases b <;> simp [emitIf]

lemma countDesc_eq_length (d : Desc) (ms : List Metric) :
    countDesc d ms = (samplesFor d ms).length := by
  simp [countDesc, samplesFor, List.countP_eq_length_filter]

lemma samplesFor_append (d : Desc) (xs ys : List Metric) :
    samplesFor d (xs ++ ys) = samplesFor d xs ++ samplesFor d ys := by
  simp [samplesFor]

lemma diskMetrics_shape {n : String} {dsk : Disk} {bs : BlockStats} {m : Metric}
    (hm : m ∈ diskMetrics n dsk bs) :
    m.labelValues = [n, dsk.source.file, dsk.target.device] ∧
    m.valueType = ValueType.counterValue ∧
    m.desc ∈ blockStatsDescs ∧
    m.desc.variableLabels = ["domain", "source_file", "target_device"] := by
  simp only [diskMetrics, List.mem_append, mem_emitIf] at hm
  rcases hm with ((((((⟨-, rfl⟩ | ⟨-, rfl⟩) | ⟨-, rfl⟩) | ⟨-, rfl⟩) | ⟨-, rfl⟩) | ⟨-, rfl⟩) | ⟨-, rfl⟩) | ⟨-, rfl⟩ <;>
    exact ⟨rfl, rfl, by simp [blockStatsDescs, MustNewConstMetric], rfl⟩

lemma diskMetrics_isBlockSample {n : String} {dsk : Disk} {bs : BlockStats} {m : Metric}
    (hm : m ∈ diskMetrics n dsk bs) : isBlockSample m := by
  obtain ⟨h1, h2, h3, _⟩ := diskMetrics_shape hm
  exact ⟨h3, h2, by simp [h1]⟩

lemma collectDisks_isBlockSample (dom : DomainBehavior) (n : String) (ds : List Disk) :
    ∀ m ∈ (collectDisks dom n ds).metrics, isBlockSample m := by
  induction ds with
  | nil => intro m hm; simp [collectDisks] at hm
  | cons d rest ih =>
    intro m hm
    cases hbs : dom.blockStats d.target.device with
    | error e => simp [collectDisks, hbs] at hm
    | ok bs =>
      simp only [collectDisks, hbs, List.mem_append] at hm
      rcases hm with hm | hm
      · exact diskMetrics_isBlockSample hm
      · exact ih m hm

lemma CollectDomain_isBlockSample (dom : DomainBehavior) :
    ∀ m ∈ (CollectDomain dom).metrics, isBlockSample m := by
  intro m hm
  cases h1 : dom.getName with
  | error e => simp [CollectDomain, h1] at hm
  | ok nm =>
    cases h2 : dom.getXMLDesc with
    | error e => simp [CollectDomain, h1, h2] at hm
    | ok raw =>
      cases h3 : xmlUnmarshal raw with
      | error e => simp [CollectDomain, h1, h2, h3] at hm
      | ok desc =>
        simp only [CollectDomain, h1, h2, h3] at hm
        exact collectDisks_isBlockSample dom nm desc.devices.disks m hm

lemma bulkCollect_isBlockSample (ds : List DomainBehavior) :
    ∀ m ∈ (bulkCollect ds).metrics, isBlockSample m := by
  induction ds with
  | nil => intro m hm; simp [bulkCollect] at hm
  | cons d rest ih =>
    intro m hm
    cases he : (CollectDomain d).err with
    | some e =>
      simp only [bulkCollect, he] at hm
      exact CollectDomain_isBlockSample d m hm
    | none =>
      simp only [bulkCollect, he, List.mem_append] at hm
      rcases hm with hm | hm
      · exact CollectDomain_isBlockSample d m hm
      · exact ih m hm

lemma fallbackCollect_isBlockSample (conn : ConnBehavior) (ids : List Nat) :
    ∀ m ∈ (fallbackCollect conn ids).metrics, isBlockSample m := by
  induction ids with
  | nil => intro m hm; simp [fallbackCollect] at hm
  | cons id rest ih =>
    intro m hm
    cases hl : conn.lookupDomainById id with
    | error e =>
      simp only [fallbackCollect, hl] at hm
      exact ih m hm
    | ok d =>
      cases he : (CollectDomain d).err with
      | some e =>
        simp only [fallbackCollect, hl, he] at hm
        exact CollectDomain_isBlockSample d m hm
      | none =>
        simp only [fallbackCollect, hl, he, List.mem_append] at hm
        rcases hm with hm | hm
        · exact CollectDomain_isBlockSample d m hm
        · exact ih m hm

lemma fallbackPath_isBlockSample (conn : ConnBehavior) :
    ∀ m ∈ (fallbackPath conn).metrics, isBlockSample m := by
  intro m hm
  cases hl : conn.listDomains with
  | error e => simp [fallbackPath, hl] at hm
  | ok ids =>
    simp only [fallbackPath, hl] at hm
    exact fallbackCollect_isBlockSample conn ids m hm

lemma CollectFromLibvirt_isBlockSample (env : LibvirtEnv) (uri : String) :
    ∀ m ∈ (CollectFromLibvirt env uri).metrics, isBlockSample m := by
  intro m hm
  cases hc : env.newConnect uri with
  | error e => simp [CollectFromLibvirt, hc] at hm
  | ok conn =>
    cases hb : conn.listAllDomains with
    | ok domains =>
      simp only [CollectFromLibvirt, hc, hb] at hm
      exact bulkCollect_isBlockSample domains m hm
    | error e =>
      simp only [CollectFromLibvirt, hc, hb] at hm
      exact fallbackPath_isBlockSample conn m hm

lemma up_notin_blockDescs : libvirtUpDesc ∉ blockStatsDescs := by decide

lemma pipeline_no_up (env : LibvirtEnv) (uri : String) :
    samplesFor libvirtUpDesc (CollectFromLibvirt env uri).metrics = [] := by
  rw [samplesFor, List.filter_eq_nil_iff]
  intro m hm
  have h := CollectFromLibvirt_isBlockSample env uri m hm
  simp only [decide_eq_true_eq]
  intro hd
  exact up_notin_blockDescs (hd ▸ h.1)

/-- C2: for every (domain, disk) stats set and each of the 8 counters, the
number of samples `CollectDomain` emits for that counter is 1 when its
meaningful flag is set and 0 when it is not — never a zero-valued sample in
the unset case. -/
theorem C2_meaningful_flag_gates_emission (n : String) (dsk : Disk) (bs : BlockStats) :
    countDesc libvirtBlockRdBytesDesc (diskMetrics n dsk bs) = (if bs.rdBytesSet then 1 else 0) ∧
    countDesc libvirtBlockRdReqDesc (diskMetrics n dsk bs) = (if bs.rdReqSet then 1 else 0) ∧
    countDesc libvirtBlockRdTotalTimesDesc (diskMetrics n dsk bs) = (if bs.rdTotalTimesSet then 1 else 0) ∧
    countDesc libvirtBlockWrBytesDesc (diskMetrics n dsk bs) = (if bs.wrBytesSet then 1 else 0) ∧
    countDesc libvirtBlockWrReqDesc (diskMetrics n dsk bs) = (if bs.wrReqSet then 1 else 0) ∧
    countDesc libvirtBlockWrTotalTimesDesc (diskMetrics n dsk bs) = (if bs.wrTotalTimesSet then 1 else 0) ∧
    countDesc libvirtBlockFlushReqDesc (diskMetrics n dsk bs) = (if bs.flushReqSet then 1 else 0) ∧
    countDesc libvirtBlockFlushTotalTimesDesc (diskMetrics n dsk bs) = (if bs.flushTotalTimesSet then 1 else 0) := by
  refine ⟨?_, ?_, ?_, ?_, ?_, ?_, ?_, ?_⟩ <;>
    simp [countDesc, diskMetrics, List.countP_append, countP_emitIf, MustNewConstMetric,
      libvirtBlockRdBytesDesc, libvirtBlockRdReqDesc, libvirtBlockRdTotalTimesDesc,
      libvirtBlockWrBytesDesc, libvirtBlockWrReqDesc, libvirtBlockWrTotalTimesDesc,
      libvirtBlockFlushReqDesc, libvirtBlockFlushTotalTimesDesc, NewDesc, BuildFQName]

/-- C3: when a counter's meaningful flag is set, the emitted sample's value
is the raw integer for byte and request counters, and the raw nanosecond
integer divided by 1e9 for the three time counters. -/
theorem C3_time_counters_scaled (n : String) (dsk : Disk) (bs : BlockStats) :
    (bs.rdBytesSet = true → samplesFor libvirtBlockRdBytesDesc (diskMetrics n dsk bs) =
      [MustNewConstMetric libvirtBlockRdBytesDesc ValueType.counterValue (bs.rdBytes : ℚ)
        [n, dsk.source.file, dsk.target.device]]) ∧
    (bs.rdReqSet = true → samplesFor libvirtBlockRdReqDesc (diskMetrics n dsk bs) =
      [MustNewConstMetric libvirtBlockRdReqDesc ValueType.counterValue (bs.rdReq : ℚ)
        [n, dsk.source.file, dsk.target.device]]) ∧
    (bs.rdTotalTimesSet = true → samplesFor libvirtBlockRdTotalTimesDesc (diskMetrics n dsk bs) =
      [MustNewConstMetric libvirtBlockRdTotalTimesDesc ValueType.counterValue
        ((bs.rdTotalTimes : ℚ) / 1000000000) [n, dsk.source.file, dsk.target.device]]) ∧
    (bs.wrBytesSet = true → samplesFor libvirtBlockWrBytesDesc (diskMetrics n dsk bs) =
      [MustNewConstMetric libvirtBlockWrBytesDesc ValueType.counterValue (bs.wrBytes : ℚ)
        [n, dsk.source.file, dsk.target.device]]) ∧
    (bs.wrReqSet = true → samplesFor libvirtBlockWrReqDesc (diskMetrics n dsk bs) =
      [MustNewConstMetric libvirtBlockWrReqDesc ValueType.counterValue (bs.wrReq : ℚ)
        [n, dsk.source.file, dsk.target.device]]) ∧
    (bs.wrTotalTimesSet = true → samplesFor libvirtBlockWrTotalTimesDesc (diskMetrics n dsk bs) =
      [MustNewConstMetric libvirtBlockWrTotalTimesDesc ValueType.counterValue
        ((bs.wrTotalTimes : ℚ) / 1000000000) [n, dsk.source.file, dsk.target.device]]) ∧
    (bs.flushReqSet = true → samplesFor libvirtBlockFlushReqDesc (diskMetrics n dsk bs) =
      [MustNewConstMetric libvirtBlockFlushReqDesc ValueType.counterValue (bs.flushReq : ℚ)
        [n, dsk.source.file, dsk.target.device]]) ∧
    (bs.flushTotalTimesSet = true → samplesFor libvirtBlockFlushTotalTimesDesc (diskMetrics n dsk bs) =
      [MustNewConstMetric libvirtBlockFlushTotalTimesDesc ValueType.counterValue
        ((bs.flushTotalTimes : ℚ) / 1000000000) [n, dsk.source.file, dsk.target.device]]) := by
  refine ⟨?_, ?_, ?_, ?_, ?_, ?_, ?_, ?_⟩ <;> intro h <;>
    simp [h, samplesFor, diskMetrics, List.filter_append, filter_emitIf, MustNewConstMetric,
      libvirtBlockRdBytesDesc, libvirtBlockRdReqDesc, libvirtBlockRdTotalTimesDesc,
      libvirtBlockWrBytesDesc, libvirtBlockWrReqDesc, libvirtBlockWrTotalTimesDesc,
      libvirtBlockFlushReqDesc, libvirtBlockFlushTotalTimesDesc, NewDesc, BuildFQName]

/-- Witness for C3 at the spec's example: raw read time 2 500 000 000 ns is
emitted as 5/2 = 2.5 seconds. -/
theorem C3_witness :
    bsEx.rdTotalTimesSet = true ∧
    samplesFor libvirtBlockRdTotalTimesDesc (diskMetrics "vm3" diskA bsEx) =
      [MustNewConstMetric libvirtBlockRdTotalTimesDesc ValueType.counterValue ((5 : ℚ) / 2)
        ["vm3", "/a.img", "vda"]] := by
  refine ⟨rfl, ?_⟩
  have h := (C3_time_counters_scaled "vm3" diskA bsEx).2.2.1 rfl
  rw [h]
  norm_num [bsEx, diskA]

/-- C8: every emitted block-stats sample carries exactly the label values
(domain name, source file, target device) in that order, has counter kind,
and one of the 8 declared descriptors, whose label schema is
(domain, source_file, target_device). -/
theorem C8_sample_labels_and_descriptor (n : String) (dsk : Disk) (bs : BlockStats) (m : Metric)
    (hm : m ∈ diskMetrics n dsk bs) :
    m.labelValues = [n, dsk.source.file, dsk.target.device] ∧
    m.valueType = ValueType.counterValue ∧
    m.desc ∈ blockStatsDescs ∧
    m.desc.variableLabels = ["domain", "source_file", "target_device"] :=
  diskMetrics_shape hm

/-- Witness for C8: the read-bytes sample of a concrete domain/disk. -/
theorem C8_witness :
    mEx ∈ diskMetrics "vm3" diskA bsEx ∧
    (mEx.labelValues = ["vm3", "/a.img", "vda"] ∧
     mEx.valueType = ValueType.counterValue ∧
     mEx.desc ∈ blockStatsDescs ∧
     mEx.desc.variableLabels = ["domain", "source_file", "target_device"]) :=
  ⟨by decide, C8_sample_labels_and_descriptor "vm3" diskA bsEx mEx (by decide)⟩

/-- C10: a domain whose descriptor parses to zero disks yields no block-stats
queries, no samples and no error, provided name resolution, descriptor fetch
and parsing succeed. -/
theorem C10_zero_disks_success (dom : DomainBehavior) (n : String) (raw : RawDoc)
    (desc : SchemaDomain)
    (h1 : dom.getName = Except.ok n) (h2 : dom.getXMLDesc = Except.ok raw)
    (h3 : xmlUnmarshal raw = Except.ok desc) (h4 : desc.devices.disks = []) :
    CollectDomain dom = ⟨[], [], none⟩ := by
  simp [CollectDomain, h1, h2, h3, h4, collectDisks]

/-- Witness for C10: a concrete domain with an empty disk list. -/
theorem C10_witness : CollectDomain domEmpty = ⟨[], [], none⟩ :=
  C10_zero_disks_success domEmpty "vm6" (RawDoc.wellFormed ⟨⟨[]⟩⟩) ⟨⟨[]⟩⟩ rfl rfl rfl rfl

lemma blockDescs_labels_length : ∀ d ∈ blockStatsDescs, d.variableLabels.length = 3 := by decide

lemma collectDisks_failfast (dom : DomainBehavior) (n : String) (pre : List Disk) (dk : Disk)
    (post : List Disk) (e : Err)
    (h1 : ∀ d ∈ pre, (dom.blockStats d.target.device).isOk = true)
    (h2 : dom.blockStats dk.target.device = Except.error e) :
    collectDisks dom n (pre ++ dk :: post) =
      ⟨(collectDisks dom n pre).metrics,
       (collectDisks dom n pre).events ++ [Event.queryBlockStats dom.handleId dk.target.device],
       some e⟩ := by
  induction pre with
  | nil => simp [collectDisks, h2]
  | cons d rest ih =>
    have hd : (dom.blockStats d.target.device).isOk = true := h1 d (by simp)
    obtain ⟨bs, hbs⟩ : ∃ bs, dom.blockStats d.target.device = Except.ok bs := by
      cases hx : dom.blockStats d.target.device with
      | error e2 => rw [hx] at hd; simp [Except.isOk, Except.toBool] at hd
      | ok bs => exact ⟨bs, rfl⟩
    have ih2 := ih (fun d2 hd2 => h1 d2 (by simp [hd2]))
    simp [collectDisks, hbs, ih2]

/-- C4: disk iteration is fail-fast.  If every disk before `dk` answers its
stats query and `dk`'s query fails with `e`, then the run over
`pre ++ dk :: post` emits exactly the samples of `pre`, issues no query for
any disk of `post`, and returns `e` unchanged; with such a domain as the
only listed domain, the error reaches `CollectFromLibvirt` and the Exporter
appends `libvirt_up = 0` after the already-emitted samples. -/
theorem C4_failfast_disk_iteration (dom : DomainBehavior) (n : String) (raw : RawDoc)
    (desc : SchemaDomain) (pre : List Disk) (dk : Disk) (post : List Disk) (e : Err)
    (hn : dom.getName = Except.ok n) (hx : dom.getXMLDesc = Except.ok raw)
    (hp : xmlUnmarshal raw = Except.ok desc) (hd : desc.devices.disks = pre ++ dk :: post)
    (h1 : ∀ d ∈ pre, (dom.blockStats d.target.device).isOk = true)
    (h2 : dom.blockStats dk.target.device = Except.error e) :
    CollectDomain dom =
      ⟨(collectDisks dom n pre).metrics,
       (collectDisks dom n pre).events ++ [Event.queryBlockStats dom.handleId dk.target.device],
       some e⟩ ∧
    (∀ env uri conn, env.newConnect uri = Except.ok conn →
      conn.listAllDomains = Except.ok [dom] →
      (CollectFromLibvirt env uri).err = some e ∧
      LibvirtExporter.Collect ⟨uri⟩ env = (CollectFromLibvirt env uri).metrics ++ [upMetric 0]) := by
  have hcd : CollectDomain dom =
      ⟨(collectDisks dom n pre).metrics,
       (collectDisks dom n pre).events ++ [Event.queryBlockStats dom.handleId dk.target.device],
       some e⟩ := by
    simp only [CollectDomain, hn, hx, hp]
    rw [hd]
    exact collectDisks_failfast dom n pre dk post e h1 h2
  refine ⟨hcd, ?_⟩
  intro env uri conn hc hl
  have herr : (CollectFromLibvirt env uri).err = some e := by
    simp [CollectFromLibvirt, hc, hl, bulkCollect, hcd]
  exact ⟨herr, by simp [LibvirtExporter.Collect, herr]⟩

/-- Witness for C4: three disks, the query for the second (`vdb`) fails;
the cycle ends in `libvirt_up = 0`. -/
theorem C4_witness :
    (CollectFromLibvirt envC4 "qemu:///system").err = some (Err.generic 7) ∧
    LibvirtExporter.Collect ⟨"qemu:///system"⟩ envC4 =
      (CollectFromLibvirt envC4 "qemu:///system").metrics ++ [upMetric 0] :=
  (C4_failfast_disk_iteration domC4 "vm4" (RawDoc.wellFormed ⟨⟨[diskA, diskB, diskC]⟩⟩)
      ⟨⟨[diskA, diskB, diskC]⟩⟩ [diskA] diskB [diskC] (Err.generic 7)
      rfl rfl rfl rfl (by decide) rfl).2 envC4 "qemu:///system" connC4 rfl rfl

/-- Counterexample to C1: a bulk-listing error that is not the
enumeration-unsupported signal does NOT propagate as a hard failure — the
code still takes the fallback (it calls `ListDomains`) and, the fallback
succeeding, the call returns no error at all. -/
theorem C1_counterexample :
    connC1.listAllDomains = Except.error (Err.generic 5) ∧
    Err.generic 5 ≠ Err.enumerationUnsupported ∧
    (CollectFromLibvirt envC1 "qemu:///system").err = none ∧
    Event.callListDomains ∈ (CollectFromLibvirt envC1 "qemu:///system").events :=
  ⟨rfl, by decide, by decide, by decide⟩

/-- C1 (amended): the fallback to ID-based enumeration is taken whenever the
bulk listing fails, whatever the error value; the bulk-listing error itself
is never propagated — the call's outcome is exactly that of the fallback
tier. -/
theorem C1_any_bulk_error_falls_back (env : LibvirtEnv) (uri : String) (conn : ConnBehavior)
    (e : Err) (hc : env.newConnect uri = Except.ok conn)
    (hb : conn.listAllDomains = Except.error e) :
    CollectFromLibvirt env uri =
      ⟨(fallbackPath conn).metrics,
       Event.callListAllDomains :: ((fallbackPath conn).events ++ [Event.closeConn]),
       (fallbackPath conn).err⟩ := by
  simp [CollectFromLibvirt, hc, hb]

/-- Witness for the amended C1 at the concrete connection `connC1`. -/
theorem C1_witness :
    CollectFromLibvirt envC1 "qemu:///system" =
      ⟨(fallbackPath connC1).metrics,
       Event.callListAllDomains :: ((fallbackPath connC1).events ++ [Event.closeConn]),
       (fallbackPath connC1).err⟩ :=
  C1_any_bulk_error_falls_back envC1 "qemu:///system" connC1 (Err.generic 5) rfl rfl

/-- C5: with ID listing [3, 7, 9] and the lookup of 7 failing, exactly
domains 3 and 9 are processed, in that order, and no error surfaces from
the id=7 gap; while an error from collecting a successfully looked-up
domain aborts the whole fallback loop with that error. -/
theorem C5_lookup_failures_skipped :
    (CollectFromLibvirt envC5 "qemu:///system" =
      ⟨(CollectDomain dom3).metrics ++ (CollectDomain dom9).metrics,
       [Event.callListAllDomains, Event.callListDomains,
        Event.callLookupById 3, Event.queryBlockStats 3 "vda", Event.freeDomain 3,
        Event.callLookupById 7,
        Event.callLookupById 9, Event.queryBlockStats 9 "vda", Event.freeDomain 9,
        Event.closeConn], none⟩) ∧
    (∀ conn id rest d e2, conn.lookupDomainById id = Except.ok d →
      (CollectDomain d).err = some e2 →
      (fallbackCollect conn (id :: rest)).err = some e2) := by
  constructor
  · rfl
  · intro conn id rest d e2 hl he
    simp [fallbackCollect, hl, he]

/-- Witness for C5's abort clause: a looked-up domain whose collection fails
makes the fallback loop fail with that error. -/
theorem C5_witness :
    (fallbackCollect connC5b [4]).err = some (Err.generic 9) :=
  C5_lookup_failures_skipped.2 connC5b 4 [] domBad (Err.generic 9) rfl rfl

/-- Evidence against C6, at the failing input `connC6` (bulk listing of the
two handles 1 and 2, every collection succeeding): the deferred frees of the
bulk path (`defer domain.Free()` on the reused loop variable, pre-Go-1.22)
release handle 2 twice and handle 1 never, while the claim demands exactly
one release of each; the connection close does happen exactly once. -/
theorem C6_release_trace :
    CollectFromLibvirt envC6 "qemu:///system" =
      ⟨[], [Event.callListAllDomains, Event.freeDomain 2, Event.freeDomain 2, Event.closeConn],
       none⟩ ∧
    (CollectFromLibvirt envC6 "qemu:///system").events.count (Event.freeDomain 1) = 0 ∧
    (CollectFromLibvirt envC6 "qemu:///system").events.count (Event.freeDomain 2) = 2 ∧
    (CollectFromLibvirt envC6 "qemu:///system").events.count Event.closeConn = 1 := by
  refine ⟨rfl, ?_, ?_, ?_⟩ <;> decide

/-- C7: Collect appends `libvirt_up = 1` to the pipeline's samples on
success and `libvirt_up = 0` on any pipeline error; when the connection
open fails the output is exactly the single sample `libvirt_up = 0`; and
every emitted sample passes as many label values as its descriptor declares
(the condition under which `MustNewConstMetric` does not panic). -/
theorem C7_health_gauge (env : LibvirtEnv) (uri : String) :
    ((CollectFromLibvirt env uri).err = none →
      LibvirtExporter.Collect ⟨uri⟩ env = (CollectFromLibvirt env uri).metrics ++ [upMetric 1]) ∧
    (∀ e, (CollectFromLibvirt env uri).err = some e →
      LibvirtExporter.Collect ⟨uri⟩ env = (CollectFromLibvirt env uri).metrics ++ [upMetric 0]) ∧
    (∀ e, env.newConnect uri = Except.error e →
      LibvirtExporter.Collect ⟨uri⟩ env = [upMetric 0]) ∧
    (∀ m ∈ LibvirtExporter.Collect ⟨uri⟩ env,
      m.labelValues.length = m.desc.variableLabels.length) := by
  refine ⟨?_, ?_, ?_, ?_⟩
  · intro h; simp [LibvirtExporter.Collect, h]
  · intro e h; simp [LibvirtExporter.Collect, h]
  · intro e h
    have hfl : CollectFromLibvirt env uri = ⟨[], [], some e⟩ := by
      simp [CollectFromLibvirt, h]
    simp [LibvirtExporter.Collect, hfl]
  · intro m hm
    cases h : (CollectFromLibvirt env uri).err with
    | none =>
      simp only [LibvirtExporter.Collect, h, List.mem_append] at hm
      rcases hm with hm | hm
      · have hb := CollectFromLibvirt_isBlockSample env uri m hm
        rw [hb.2.2, blockDescs_labels_length m.desc hb.1]
      · simp at hm
        subst hm
        rfl
    | some e =>
      simp only [LibvirtExporter.Collect, h, List.mem_append] at hm
      rcases hm with hm | hm
      · have hb := CollectFromLibvirt_isBlockSample env uri m hm
        rw [hb.2.2, blockDescs_labels_length m.desc hb.1]
      · simp at hm
        subst hm
        rfl

/-- Witness for C7: an environment whose open fails yields exactly the one
sample `libvirt_up = 0`. -/
theorem C7_witness :
    LibvirtExporter.Collect ⟨"qemu:///system"⟩ envFail = [upMetric 0] :=
  (C7_health_gauge envFail "qemu:///system").2.2.1 (Err.generic 3) rfl

/-- C9: every Collect invocation emits exactly one `libvirt_up` sample, with
value 1 when the pipeline returned no error and 0 when it returned one. -/
theorem C9_exactly_one_up (ex : LibvirtExporter) (env : LibvirtEnv) :
    countDesc libvirtUpDesc (ex.Collect env) = 1 ∧
    ((CollectFromLibvirt env ex.uri).err = none →
      samplesFor libvirtUpDesc (ex.Collect env) = [upMetric 1]) ∧
    (∀ e, (CollectFromLibvirt env ex.uri).err = some e →
      samplesFor libvirtUpDesc (ex.Collect env) = [upMetric 0]) := by
  cases h : (CollectFromLibvirt env ex.uri).err with
  | none =>
    have hcol : ex.Collect env = (CollectFromLibvirt env ex.uri).metrics ++ [upMetric 1] := by
      simp [LibvirtExporter.Collect, h]
    have hs : samplesFor libvirtUpDesc (ex.Collect env) = [upMetric 1] := by
      rw [hcol, samplesFor_append, pipeline_no_up]; rfl
    refine ⟨by rw [countDesc_eq_length, hs]; rfl, fun _ => hs, ?_⟩
    intro e he
    exact absurd he (by simp)
  | some e0 =>
    have hcol : ex.Collect env = (CollectFromLibvirt env ex.uri).metrics ++ [upMetric 0] := by
      simp [LibvirtExporter.Collect, h]
    have hs : samplesFor libvirtUpDesc (ex.Collect env) = [upMetric 0] := by
      rw [hcol, samplesFor_append, pipeline_no_up]; rfl
    refine ⟨by rw [countDesc_eq_length, hs]; rfl, ?_, fun e he => hs⟩
    intro hnone
    exact absurd hnone (by simp)

/-- Witness for C9 at a concrete failing environment. -/
theorem C9_witness :
    countDesc libvirtUpDesc (LibvirtExporter.Collect ⟨"u"⟩ envFail) = 1 ∧
    samplesFor libvirtUpDesc (LibvirtExporter.Collect ⟨"u"⟩ envFail) = [upMetric 0] :=
  ⟨(C9_exactly_one_up ⟨"u"⟩ envFail).1,
   (C9_exactly_one_up ⟨"u"⟩ envFail).2.2 (Err.generic 3) rfl⟩
